import Mathlib

/-!
Verification of the `kreier/wob` wake-signal scripts.

The repository holds two near-duplicate Python scripts,
`src/esp32c3/gemini/power_button_penta/raspberrypi.py` and
`src/python/wake_penta.py`.  Each opens a BLE connection to a fixed
peripheral address with `async with BleakClient(address) as client:`,
writes the single byte `b'\x01'` to a fixed GATT characteristic with
`await client.write_gatt_char(CHAR_UUID, b'\x01')`, and exits via
`asyncio.run(...)`; `raspberrypi.py` additionally prints one
confirmation line after the write.

The scripts are embedded as functions over a model of the external
bleak BLE stack (`BLEStack`).  The observable behaviour of a run is an
event trace (connect / write / disconnect / print), a result
(`Except GattError Unit`), and the elapsed time of the suspending
transport calls.
-/

/-- Error taxonomy of the BLE transport: connection failure
(peripheral unreachable / connect timeout), characteristic lookup
failure (UUID absent from the peripheral's GATT table), and
transport-level write failure. -/
inductive GattError where
  | connectionError
  | characteristicNotFoundError
  | writeError
deriving DecidableEq, Repr

/-- Observable events of a script run: a connection opened to an
address, a GATT write of a payload (a list of byte values) to a
characteristic, a disconnect, and a printed line of output. -/
inductive Event where
  | connect (address : String)
  | write (char : String) (payload : List Nat)
  | disconnect
  | printLine (msg : String)
deriving DecidableEq, Repr

/-- Model of the external bleak BLE central-role stack (the library is
an external collaborator, not part of the repository; its interface is
connect-by-address, write-characteristic-by-UUID, disconnect).
`reachable` says whether the peripheral at the configured address can
be connected to; `hasChar` is the peripheral's table of writable
characteristics; `writeOk` says whether the transport accepts the
write; `connectTime` is the duration of the connect attempt, which the
platform bounds by its connection `timeout`
(`connect_within_timeout`). -/
structure BLEStack where
  reachable : Bool
  hasChar : String → Bool
  writeOk : Bool
  timeout : Nat
  connectTime : Nat
  writeTime : Nat
  connect_within_timeout : connectTime ≤ timeout

/-- Mutable observables accumulated by a run: the event trace so far
and the elapsed time of the transport calls. -/
structure St where
  trace : List Event
  elapsed : Nat
deriving DecidableEq, Repr

/-- A step of the embedded scripts: given the BLE stack and the
observables so far, produce a result (or a raised error) and the
updated observables. -/
def BLE (α : Type) : Type := BLEStack → St → Except GattError α × St

/-- Sequencing of embedded steps: a raised error skips the rest,
exactly as an uncaught Python exception aborts the remaining
statements. -/
def BLE.bind (m : BLE α) (f : α → BLE β) : BLE β := fun s st =>
  match m s st with
  | (Except.ok a, st1) => f a s st1
  | (Except.error e, st1) => (Except.error e, st1)

/-- `BleakClient(address)` entry (`__aenter__`): the connect attempt.
It suspends for `connectTime` (bounded by the platform timeout) and
either succeeds, recording the connection, or raises
`connectionError`. -/
def BleakClient.connect (addr : String) : BLE Unit := fun s st =>
  if s.reachable then
    (Except.ok (), { trace := st.trace ++ [Event.connect addr], elapsed := st.elapsed + s.connectTime })
  else
    (Except.error GattError.connectionError, { st with elapsed := st.elapsed + s.connectTime })

/-- `BleakClient` exit (`__aexit__`): release the connection. -/
def BleakClient.disconnect : BLE Unit := fun _ st =>
  (Except.ok (), { st with trace := st.trace ++ [Event.disconnect] })

/-- `client.write_gatt_char(char, payload)`: raises
`characteristicNotFoundError` when the UUID is not a writable
characteristic of the connected peripheral, `writeError` when the
transport rejects the write, and otherwise records the write. -/
def BleakClient.write_gatt_char (char : String) (payload : List Nat) : BLE Unit := fun s st =>
  if s.hasChar char then
    if s.writeOk then
      (Except.ok (), { trace := st.trace ++ [Event.write char payload], elapsed := st.elapsed + s.writeTime })
    else
      (Except.error GattError.writeError, { st with elapsed := st.elapsed + s.writeTime })
  else
    (Except.error GattError.characteristicNotFoundError, st)

/-- `print(msg)`: record one line of output. -/
def printStmt (msg : String) : BLE Unit := fun _ st =>
  (Except.ok (), { st with trace := st.trace ++ [Event.printLine msg] })

/-- `async with BleakClient(addr) as client: body` — Python context
manager semantics: if entry (connect) raises, the body and exit are
skipped and the error propagates; otherwise the body runs and the exit
(disconnect) runs on every exit path of the body, after which a body
error propagates (bleak's `__aexit__` does not suppress exceptions). -/
def asyncWithBleakClient (addr : String) (body : BLE α) : BLE α := fun s st =>
  match BleakClient.connect addr s st with
  | (Except.error e, st1) => (Except.error e, st1)
  | (Except.ok _, st1) =>
    match body s st1 with
    | (Except.ok a, st2) =>
      match BleakClient.disconnect s st2 with
      | (Except.ok _, st3) => (Except.ok a, st3)
      | (Except.error e, st3) => (Except.error e, st3)
    | (Except.error e, st2) =>
      match BleakClient.disconnect s st2 with
      | (_, st3) => (Except.error e, st3)

namespace raspberrypi

/-- `address = "XX:XX:XX:XX:XX:XX"` from `raspberrypi.py` line 4. -/
def address : String := "XX:XX:XX:XX:XX:XX"

/-- `CHAR_UUID = "0000ff01-0000-1000-8000-00805f9b34fb"` from
`raspberrypi.py` line 5. -/
def CHAR_UUID : String := "0000ff01-0000-1000-8000-00805f9b34fb"

/-- `async def main()` from `raspberrypi.py` lines 7-10: connect,
write `b'\x01'` to `CHAR_UUID`, print the confirmation, disconnect. -/
def main : BLE Unit :=
  asyncWithBleakClient address
    (BLE.bind (BleakClient.write_gatt_char CHAR_UUID [0x01])
      (fun _ => printStmt "Wake signal sent to Penta server."))

end raspberrypi

namespace wake_penta

/-- `DEVICE_ADDRESS = "XX:XX:XX:XX:XX:XX"` from `wake_penta.py`
line 6. -/
def DEVICE_ADDRESS : String := "XX:XX:XX:XX:XX:XX"

/-- `CHAR_UUID = "your-characteristic-uuid"` from `wake_penta.py`
line 7 (an unfilled placeholder, not a UUID). -/
def CHAR_UUID : String := "your-characteristic-uuid"

/-- `async def wake()` from `wake_penta.py` lines 9-11: connect, write
`b'\x01'` to `CHAR_UUID`, disconnect; no output. -/
def wake : BLE Unit :=
  asyncWithBleakClient DEVICE_ADDRESS
    (BleakClient.write_gatt_char CHAR_UUID [0x01])

end wake_penta

/-- `asyncio.run(coro)` at the top level of each script: run the
coroutine from a fresh process state (empty trace, zero elapsed
time). -/
def asyncioRun (p : BLE Unit) (s : BLEStack) : Except GattError Unit × St :=
  p s { trace := [], elapsed := 0 }

/-- Process exit status, modelled from the spec: the platform default
contract is status 0 on normal completion and a non-zero status (1,
the CPython default) when an unhandled exception propagates out of
`asyncio.run`. -/
def exitCode (p : BLE Unit) (s : BLEStack) : Nat :=
  match (asyncioRun p s).1 with
  | Except.ok _ => 0
  | Except.error _ => 1

/-- Whether an event is a GATT write. -/
def isWriteEvent : Event → Bool
  | Event.write _ _ => true
  | _ => false

/-- Whether an event is an opened connection. -/
def isConnectEvent : Event → Bool
  | Event.connect _ => true
  | _ => false

/-- Whether an event is a printed output line. -/
def isPrintEvent : Event → Bool
  | Event.printLine _ => true
  | _ => false

/-- Number of GATT writes in a trace. -/
def writeCount (t : List Event) : Nat := (t.filter isWriteEvent).length

/-- Number of opened connections in a trace. -/
def connectCount (t : List Event) : Nat := (t.filter isConnectEvent).length

/-- The output lines of a trace, in order. -/
def prints (t : List Event) : List Event := t.filter isPrintEvent

/-- Drop the output lines of a trace, keeping the transport events. -/
def erasePrints (t : List Event) : List Event := t.filter (fun e => !(isPrintEvent e))

/-- Rename characteristic `a` to `b` in the write events of a trace. -/
def renameChar (a b : String) : List Event → List Event :=
  List.map (fun e =>
    match e with
    | Event.write c pl => if c == a then Event.write b pl else Event.write c pl
    | e => e)

/-- Whether a character is a hexadecimal digit. -/
def isHexDigit (c : Char) : Bool :=
  c.isDigit || (('a' ≤ c) && (c ≤ 'f')) || (('A' ≤ c) && (c ≤ 'F'))

/-- Split a character list into the groups separated by dashes. -/
def splitDash : List Char → List (List Char)
  | [] => [[]]
  | c :: cs =>
    if c = '-' then [] :: splitDash cs
    else
      match splitDash cs with
      | [] => [[c]]
      | g :: gs => (c :: g) :: gs

/-- Syntactic validity of a 128-bit UUID string: five dash-separated
groups of 8, 4, 4, 4 and 12 hexadecimal digits. -/
def isValidUuid128 (u : String) : Bool :=
  match splitDash u.toList with
  | [a, b, c, d, e] =>
    (a.length == 8) && (b.length == 4) && (c.length == 4) && (d.length == 4) && (e.length == 12)
      && (a ++ b ++ c ++ d ++ e).all isHexDigit
  | _ => false

/-- A stack on which everything succeeds: peripheral reachable, every
characteristic writable, transport accepts the write. -/
def stackAllOk : BLEStack where
  reachable := true
  hasChar := fun _ => true
  writeOk := true
  timeout := 10
  connectTime := 3
  writeTime := 1
  connect_within_timeout := by decide

/-- A stack whose peripheral is powered off: unreachable, the connect
attempt consumes the full platform timeout. -/
def stackOff : BLEStack where
  reachable := false
  hasChar := fun _ => false
  writeOk := false
  timeout := 10
  connectTime := 10
  writeTime := 0
  connect_within_timeout := by decide

/-- Case-by-case outcome of `raspberrypi.main`: the run is a pure
function of the stack, with four possible outcomes according to
reachability, characteristic lookup and write acceptance. -/
theorem raspberrypi_main_spec (s : BLEStack) :
    asyncioRun raspberrypi.main s =
      if s.reachable then
        if s.hasChar raspberrypi.CHAR_UUID then
          if s.writeOk then
            (Except.ok (),
              { trace := [Event.connect raspberrypi.address,
                          Event.write raspberrypi.CHAR_UUID [1],
                          Event.printLine "Wake signal sent to Penta server.",
                          Event.disconnect],
                elapsed := s.connectTime + s.writeTime })
          else
            (Except.error GattError.writeError,
              { trace := [Event.connect raspberrypi.address, Event.disconnect],
                elapsed := s.connectTime + s.writeTime })
        else
          (Except.error GattError.characteristicNotFoundError,
            { trace := [Event.connect raspberrypi.address, Event.disconnect],
              elapsed := s.connectTime })
      else
        (Except.error GattError.connectionError, { trace := [], elapsed := s.connectTime }) := by
  cases hr : s.reachable <;>
    cases hc : s.hasChar raspberrypi.CHAR_UUID <;>
      cases hw : s.writeOk <;>
        simp [asyncioRun, raspberrypi.main, asyncWithBleakClient, BleakClient.connect,
          BleakClient.disconnect, BleakClient.write_gatt_char, BLE.bind, printStmt, hr, hc, hw]

/-- Case-by-case outcome of `wake_penta.wake`: same shape as
`raspberrypi_main_spec` but with no output line. -/
theorem wake_penta_wake_spec (s : BLEStack) :
    asyncioRun wake_penta.wake s =
      if s.reachable then
        if s.hasChar wake_penta.CHAR_UUID then
          if s.writeOk then
            (Except.ok (),
              { trace := [Event.connect wake_penta.DEVICE_ADDRESS,
                          Event.write wake_penta.CHAR_UUID [1],
                          Event.disconnect],
                elapsed := s.connectTime + s.writeTime })
          else
            (Except.error GattError.writeError,
              { trace := [Event.connect wake_penta.DEVICE_ADDRESS, Event.disconnect],
                elapsed := s.connectTime + s.writeTime })
        else
          (Except.error GattError.characteristicNotFoundError,
            { trace := [Event.connect wake_penta.DEVICE_ADDRESS, Event.disconnect],
              elapsed := s.connectTime })
      else
        (Except.error GattError.connectionError, { trace := [], elapsed := s.connectTime }) := by
  cases hr : s.reachable <;>
    cases hc : s.hasChar wake_penta.CHAR_UUID <;>
      cases hw : s.writeOk <;>
        simp [asyncioRun, wake_penta.wake, asyncWithBleakClient, BleakClient.connect,
          BleakClient.disconnect, BleakClient.write_gatt_char, BLE.bind, hr, hc, hw]

/-- C1: for every invocation of either script, any payload written to
the characteristic is exactly the single byte `0x01`, and at most one
write is ever transmitted. -/
theorem C1_single_byte_payload (p : BLE Unit) (s : BLEStack) (u : String) (pl : List Nat)
    (hp : p = raspberrypi.main ∨ p = wake_penta.wake)
    (h : Event.write u pl ∈ (asyncioRun p s).2.trace) :
    pl = [1] ∧ writeCount (asyncioRun p s).2.trace ≤ 1 := by
  rcases hp with hp | hp <;> subst hp
  · rw [raspberrypi_main_spec] at h ⊢
    split_ifs at h ⊢ <;> simp_all [writeCount, isWriteEvent]
  · rw [wake_penta_wake_spec] at h ⊢
    split_ifs at h ⊢ <;> simp_all [writeCount, isWriteEvent]

/-- Witness for C1: the write observed on the all-success stack for
`raspberrypi.main` carries payload `[1]`. -/
theorem C1_single_byte_payload_witness :
    [1] = [1] ∧ writeCount (asyncioRun raspberrypi.main stackAllOk).2.trace ≤ 1 :=
  C1_single_byte_payload raspberrypi.main stackAllOk raspberrypi.CHAR_UUID [1]
    (Or.inl rfl) (by decide)

/-- C2: whenever either script opened a connection, the last
observable event of the run is the disconnect — the connection handle
is released on every exit path. -/
theorem C2_connection_released (p : BLE Unit) (s : BLEStack) (a : String)
    (hp : p = raspberrypi.main ∨ p = wake_penta.wake)
    (h : Event.connect a ∈ (asyncioRun p s).2.trace) :
    (asyncioRun p s).2.trace.getLast? = some Event.disconnect := by
  rcases hp with hp | hp <;> subst hp
  · rw [raspberrypi_main_spec] at h ⊢
    split_ifs at h ⊢ <;> simp_all
  · rw [wake_penta_wake_spec] at h ⊢
    split_ifs at h ⊢ <;> simp_all

/-- Witness for C2: on the all-success stack, `wake_penta.wake` opens
a connection and its run ends with the disconnect. -/
theorem C2_connection_released_witness :
    (asyncioRun wake_penta.wake stackAllOk).2.trace.getLast? = some Event.disconnect :=
  C2_connection_released wake_penta.wake stackAllOk wake_penta.DEVICE_ADDRESS
    (Or.inr rfl) (by decide)

/-- C3: each invocation opens at most one connection and issues at
most one write, and a successful invocation produces exactly the
linear trace connect, write, (confirmation print for
`raspberrypi.py`), disconnect. -/
theorem C3_linear_sequence (s : BLEStack) :
    connectCount (asyncioRun raspberrypi.main s).2.trace ≤ 1 ∧
    writeCount (asyncioRun raspberrypi.main s).2.trace ≤ 1 ∧
    connectCount (asyncioRun wake_penta.wake s).2.trace ≤ 1 ∧
    writeCount (asyncioRun wake_penta.wake s).2.trace ≤ 1 ∧
    ((asyncioRun raspberrypi.main s).1 = Except.ok () →
      (asyncioRun raspberrypi.main s).2.trace =
        [Event.connect raspberrypi.address, Event.write raspberrypi.CHAR_UUID [1],
         Event.printLine "Wake signal sent to Penta server.", Event.disconnect]) ∧
    ((asyncioRun wake_penta.wake s).1 = Except.ok () →
      (asyncioRun wake_penta.wake s).2.trace =
        [Event.connect wake_penta.DEVICE_ADDRESS, Event.write wake_penta.CHAR_UUID [1],
         Event.disconnect]) := by
  rw [raspberrypi_main_spec, wake_penta_wake_spec]
  split_ifs <;> simp_all [connectCount, writeCount, isConnectEvent, isWriteEvent]

/-- Witness for C3: on the all-success stack the successful
`wake_penta.wake` run has exactly the trace connect, write,
disconnect. -/
theorem C3_linear_sequence_witness :
    (asyncioRun wake_penta.wake stackAllOk).2.trace =
      [Event.connect wake_penta.DEVICE_ADDRESS, Event.write wake_penta.CHAR_UUID [1],
       Event.disconnect] :=
  (C3_linear_sequence stackAllOk).2.2.2.2.2 (by rfl)

/-- C4: when the peripheral is unreachable, both scripts fail with
`connectionError` and no write is ever attempted. -/
theorem C4_no_write_on_unreachable (s : BLEStack) (h : s.reachable = false) :
    (asyncioRun raspberrypi.main s).1 = Except.error GattError.connectionError ∧
    (asyncioRun wake_penta.wake s).1 = Except.error GattError.connectionError ∧
    writeCount (asyncioRun raspberrypi.main s).2.trace = 0 ∧
    writeCount (asyncioRun wake_penta.wake s).2.trace = 0 := by
  rw [raspberrypi_main_spec, wake_penta_wake_spec]
  simp [h, writeCount]

/-- Witness for C4: at the powered-off stack both scripts yield a
connection error and write nothing. -/
theorem C4_no_write_on_unreachable_witness :
    (asyncioRun raspberrypi.main stackOff).1 = Except.error GattError.connectionError ∧
    (asyncioRun wake_penta.wake stackOff).1 = Except.error GattError.connectionError ∧
    writeCount (asyncioRun raspberrypi.main stackOff).2.trace = 0 ∧
    writeCount (asyncioRun wake_penta.wake stackOff).2.trace = 0 :=
  C4_no_write_on_unreachable stackOff rfl

/-- C5: the exit status of either script is 0 exactly on normal
completion; every error arising during connect or write propagates
uncaught and terminates the process with status 1; and no retry is
performed (at most one connection attempt is ever recorded). -/
theorem C5_error_propagation (p : BLE Unit) (s : BLEStack)
    (hp : p = raspberrypi.main ∨ p = wake_penta.wake) :
    ((asyncioRun p s).1 = Except.ok () ↔ exitCode p s = 0) ∧
    (∀ e, (asyncioRun p s).1 = Except.error e → exitCode p s = 1) ∧
    connectCount (asyncioRun p s).2.trace ≤ 1 := by
  rcases hp with hp | hp <;> subst hp <;>
    simp only [exitCode, raspberrypi_main_spec, wake_penta_wake_spec] <;>
    split_ifs <;>
    simp_all [connectCount, isConnectEvent]

/-- Witness for C5: on the powered-off stack, `wake_penta.wake` exits
with status 1 after the connection error. -/
theorem C5_error_propagation_witness :
    exitCode wake_penta.wake stackOff = 1 :=
  (C5_error_propagation wake_penta.wake stackOff (Or.inr rfl)).2.1
    GattError.connectionError (by rfl)

/-- C6: syntactic UUID validity of the configured constants.
`raspberrypi.py`'s `CHAR_UUID` is a valid 128-bit UUID, but
`wake_penta.py`'s `CHAR_UUID` is the unfilled placeholder
"your-characteristic-uuid", which is not a syntactically valid UUID
(its dash-separated groups are neither hexadecimal nor of the required
lengths), so the claim fails on `wake_penta.py` as committed. -/
theorem C6_uuid_validity :
    isValidUuid128 raspberrypi.CHAR_UUID = true ∧
    isValidUuid128 wake_penta.CHAR_UUID = false := by
  constructor <;> decide

/-- C7: functional equivalence of the two scripts modulo the hardcoded
constants and the confirmation output.  When the stack treats the two
configured characteristic UUIDs alike (the meaning of "modulo the
constants" — both scripts also use the same address placeholder), the
two runs yield the same result and the same elapsed time, and the
`wake_penta.py` trace is the `raspberrypi.py` trace with the UUID
constant renamed and the print removed. -/
theorem C7_functional_equivalence (s : BLEStack)
    (h : s.hasChar wake_penta.CHAR_UUID = s.hasChar raspberrypi.CHAR_UUID) :
    (asyncioRun wake_penta.wake s).1 = (asyncioRun raspberrypi.main s).1 ∧
    (asyncioRun wake_penta.wake s).2.trace =
      erasePrints (renameChar raspberrypi.CHAR_UUID wake_penta.CHAR_UUID
        (asyncioRun raspberrypi.main s).2.trace) ∧
    (asyncioRun wake_penta.wake s).2.elapsed = (asyncioRun raspberrypi.main s).2.elapsed := by
  rw [raspberrypi_main_spec, wake_penta_wake_spec]
  cases hr : s.reachable <;> cases hc : s.hasChar raspberrypi.CHAR_UUID <;>
    cases hw : s.writeOk <;>
      simp_all [erasePrints, renameChar, isPrintEvent, raspberrypi.address,
        wake_penta.DEVICE_ADDRESS, raspberrypi.CHAR_UUID, wake_penta.CHAR_UUID]

/-- Witness for C7 at the all-success stack, where every
characteristic is writable. -/
theorem C7_functional_equivalence_witness :
    (asyncioRun wake_penta.wake stackAllOk).1 = (asyncioRun raspberrypi.main stackAllOk).1 ∧
    (asyncioRun wake_penta.wake stackAllOk).2.trace =
      erasePrints (renameChar raspberrypi.CHAR_UUID wake_penta.CHAR_UUID
        (asyncioRun raspberrypi.main stackAllOk).2.trace) ∧
    (asyncioRun wake_penta.wake stackAllOk).2.elapsed =
      (asyncioRun raspberrypi.main stackAllOk).2.elapsed :=
  C7_functional_equivalence stackAllOk rfl

/-- Two successive process invocations of the same script against the
same stack; each starts from a fresh process state, and no state flows
from the first invocation into the second. -/
def runTwice (p : BLE Unit) (s : BLEStack) :
    (Except GattError Unit × St) × (Except GattError Unit × St) :=
  (asyncioRun p s, asyncioRun p s)

/-- Writes in a concatenated trace are the writes of the two parts. -/
theorem writeCount_append (t u : List Event) :
    writeCount (t ++ u) = writeCount t + writeCount u := by
  simp [writeCount, List.filter_append]

/-- C8: invoking either script twice in succession against the same
reachable stack produces two independent successful runs with exactly
two writes in total, and the second run's outcome is identical to the
first's. -/
theorem C8_independent_invocations (p : BLE Unit) (s : BLEStack)
    (hp : p = raspberrypi.main ∨ p = wake_penta.wake)
    (h : (asyncioRun p s).1 = Except.ok ()) :
    (runTwice p s).1.1 = Except.ok () ∧
    (runTwice p s).2.1 = Except.ok () ∧
    writeCount ((runTwice p s).1.2.trace ++ (runTwice p s).2.2.trace) = 2 ∧
    (runTwice p s).2 = (runTwice p s).1 := by
  have h1 : writeCount (asyncioRun p s).2.trace = 1 := by
    rcases hp with hp | hp <;> subst hp
    · rw [raspberrypi_main_spec] at h ⊢
      split_ifs at h ⊢
      simp_all [writeCount, isWriteEvent]
    · rw [wake_penta_wake_spec] at h ⊢
      split_ifs at h ⊢
      simp_all [writeCount, isWriteEvent]
  refine ⟨h, h, ?_, rfl⟩
  rw [show (runTwice p s).1 = asyncioRun p s from rfl,
    show (runTwice p s).2 = asyncioRun p s from rfl, writeCount_append, h1]

/-- Witness for C8: two successive `wake_penta.wake` invocations on
the all-success stack. -/
theorem C8_independent_invocations_witness :
    (runTwice wake_penta.wake stackAllOk).1.1 = Except.ok () ∧
    (runTwice wake_penta.wake stackAllOk).2.1 = Except.ok () ∧
    writeCount ((runTwice wake_penta.wake stackAllOk).1.2.trace ++
      (runTwice wake_penta.wake stackAllOk).2.2.trace) = 2 ∧
    (runTwice wake_penta.wake stackAllOk).2 = (runTwice wake_penta.wake stackAllOk).1 :=
  C8_independent_invocations wake_penta.wake stackAllOk (Or.inr rfl) (by rfl)

/-- C9: against an unreachable peripheral, both scripts terminate with
`connectionError`, and the elapsed time of the whole run stays within
the platform's connection timeout bound (the stack bounds the connect
attempt, and the scripts add no retry that could exceed it). -/
theorem C9_bounded_connection_failure (s : BLEStack) (h : s.reachable = false) :
    (asyncioRun raspberrypi.main s).1 = Except.error GattError.connectionError ∧
    (asyncioRun wake_penta.wake s).1 = Except.error GattError.connectionError ∧
    (asyncioRun raspberrypi.main s).2.elapsed ≤ s.timeout ∧
    (asyncioRun wake_penta.wake s).2.elapsed ≤ s.timeout := by
  rw [raspberrypi_main_spec, wake_penta_wake_spec]
  simp [h, s.connect_within_timeout]

/-- Witness for C9: on the powered-off stack, whose failing connect
attempt consumes the full 10-unit timeout, both runs fail within the
bound. -/
theorem C9_bounded_connection_failure_witness :
    (asyncioRun raspberrypi.main stackOff).1 = Except.error GattError.connectionError ∧
    (asyncioRun wake_penta.wake stackOff).1 = Except.error GattError.connectionError ∧
    (asyncioRun raspberrypi.main stackOff).2.elapsed ≤ stackOff.timeout ∧
    (asyncioRun wake_penta.wake stackOff).2.elapsed ≤ stackOff.timeout :=
  C9_bounded_connection_failure stackOff rfl

/-- C10: `wake_penta.wake` never prints; neither script prints before
the write (the part of the `raspberrypi.py` trace preceding the first
write holds no output); a successful `raspberrypi.main` run prints
exactly the one confirmation line, and a failing run prints
nothing. -/
theorem C10_output_discipline (s : BLEStack) :
    prints (asyncioRun wake_penta.wake s).2.trace = [] ∧
    prints ((asyncioRun raspberrypi.main s).2.trace.takeWhile
      (fun e => !(isWriteEvent e))) = [] ∧
    ((asyncioRun raspberrypi.main s).1 = Except.ok () →
      prints (asyncioRun raspberrypi.main s).2.trace =
        [Event.printLine "Wake signal sent to Penta server."]) ∧
    (∀ e, (asyncioRun raspberrypi.main s).1 = Except.error e →
      prints (asyncioRun raspberrypi.main s).2.trace = []) := by
  rw [raspberrypi_main_spec, wake_penta_wake_spec]
  split_ifs <;> simp_all [prints, isPrintEvent, isWriteEvent, List.takeWhile]

/-- Witness for C10: the successful `raspberrypi.main` run on the
all-success stack prints exactly the confirmation line. -/
theorem C10_output_discipline_witness :
    prints (asyncioRun raspberrypi.main stackAllOk).2.trace =
      [Event.printLine "Wake signal sent to Penta server."] :=
  (C10_output_discipline stackAllOk).2.2.1 (by rfl)
